import Mathlib

/-! hoodie-server: CouchDB supervision and subdomain routing

A shallow embedding of `lib/couch.js` and `lib/nodejitsu_server.js`.

* JavaScript strings are Lean strings, absent values are `Option`/`JsVal`.
* Every call the code makes on the outside world (`console.log`, the startup
  callback, `new MultiCouch`, `couchdb.stop()`, `process.exit`, an emitted
  `request`, `proxy.proxyRequest`, ...) is recorded, in program order, as an
  `Effect` of a trace.
* The function literals registered as event listeners are named by the
  constructors of `CouchListener` and `ProcessListener`; the variables they
  close over (`started`, `couchdb`) live in the `Host` state.
-/

namespace HoodieServer

/-! ## JavaScript values used by the configuration -/

/-- A configuration entry that is expected to hold a string and may be absent. -/
inductive JsVal where
  | undefined
  | null
  | str (s : String)
  deriving DecidableEq, Repr

/-- JavaScript truthiness, as tested by `!value`: `undefined`, `null` and the
empty string are falsy, every other string is truthy. -/
def JsVal.truthy : JsVal → Bool
  | .str s => decide (s ≠ "")
  | _ => false

/-- A configuration entry that is missing: `undefined`, `null` or the empty string. -/
def JsVal.missing (v : JsVal) : Prop :=
  v = .undefined ∨ v = .null ∨ v = .str ""

/-- An `Error` object, identified by its message. -/
structure JsError where
  message : String
  deriving DecidableEq, Repr

/-- The object `config.couch`. -/
structure CouchConfig where
  run : Bool
  url : String
  host : String
  port : Nat
  bin : JsVal
  default_ini : JsVal
  local_url : String
  version : Option String
  deriving DecidableEq, Repr

/-- The object `config.hoodie`. -/
structure HoodieConfig where
  app_path : String
  deriving DecidableEq, Repr

/-- The configuration object handed to every function of `lib/couch.js`. -/
structure Config where
  couch : CouchConfig
  hoodie : HoodieConfig
  host : String
  local_tld : Bool
  boring : Bool
  deriving DecidableEq, Repr

/-! ## The `semver` comparison used by `checkCouchVersion`

`semver` is a dependency of the repository.  The fragment modelled here is the
plain `major.minor.patch` grammar of its strict mode
(`MAINVERSION = (NUM)\.(NUM)\.(NUM)` with `NUM = 0|[1-9]\d*`) and the
comparison `compareMain` on the three numeric fields.  A string outside that
fragment parses to `none`. -/

/-- A parsed plain version. -/
structure SemVer where
  major : Nat
  minor : Nat
  patch : Nat
  deriving DecidableEq, Repr

/-- The pieces of a character list between the occurrences of `.`. -/
def splitOnDot : List Char → List (List Char)
  | [] => [[]]
  | c :: cs =>
    if c = '.' then [] :: splitOnDot cs
    else
      match splitOnDot cs with
      | [] => [[c]]
      | piece :: pieces => (c :: piece) :: pieces

/-- The regular expression `0|[1-9]\d*`, anchored at both ends. -/
def isNumericIdentifier : List Char → Bool
  | [] => false
  | [c] => c.isDigit
  | c :: cs => c.isDigit && c != '0' && cs.all Char.isDigit

/-- The number a string of decimal digits denotes (`+m[1]`). -/
def numericValue (cs : List Char) : Nat :=
  cs.foldl (fun acc c => acc * 10 + (c.toNat - '0'.toNat)) 0

/-- The `SemVer` constructor on a plain `major.minor.patch` string. -/
def SemVer.parse (version : String) : Option SemVer :=
  match splitOnDot version.data with
  | [a, b, c] =>
    if isNumericIdentifier a && isNumericIdentifier b && isNumericIdentifier c then
      some ⟨numericValue a, numericValue b, numericValue c⟩
    else none
  | _ => none

/-- The function `compareIdentifiers` on two numbers: `-1`, `0` or `1`. -/
def compareIdentifiers (a b : Nat) : Int :=
  if a < b then -1 else if a > b then 1 else 0

/-- The method `compareMain`: the first non-zero comparison of major, minor, patch
(`x || y || z` on numbers). -/
def SemVer.compareMain (v other : SemVer) : Int :=
  if compareIdentifiers v.major other.major ≠ 0 then compareIdentifiers v.major other.major
  else if compareIdentifiers v.minor other.minor ≠ 0 then compareIdentifiers v.minor other.minor
  else compareIdentifiers v.patch other.patch

/-- The function `semver.gte(a, b)`, that is `compare(a, b) >= 0`, on two plain versions. -/
def semverGte (a b : String) : Option Bool :=
  match SemVer.parse a, SemVer.parse b with
  | some va, some vb => some (decide (0 ≤ va.compareMain vb))
  | _, _ => none

/-- The text `major.minor.patch` of three numbers written in decimal. -/
def versionString (major minor patch : Nat) : String :=
  toString major ++ "." ++ toString minor ++ "." ++ toString patch

/-! ## Effects and the host process of `lib/couch.js` -/

/-- The object `couch_cfg` handed to `new MultiCouch`.  The field `prefixDir` is the
field `prefix` of the source. -/
structure CouchCfg where
  port : Nat
  prefixDir : String
  couchdb_path : JsVal
  default_sys_ini : JsVal
  respawn : Bool
  session_timeout : String
  deriving DecidableEq, Repr

/-- One argument of a `console.log` call. -/
inductive LogItem where
  | text (s : String)
  | value (err : Option JsError)
  | arguments
  deriving DecidableEq, Repr

/-- A call made by `lib/couch.js` on the outside world. -/
inductive Effect where
  /-- The call `console.log(items...)`. -/
  | log (items : List LogItem)
  /-- An invocation of the startup callback; `none` is a call without error. -/
  | callback (err : Option JsError)
  /-- The construction `new MultiCouch(cfg)`. -/
  | newMultiCouch (cfg : CouchCfg)
  /-- The call `couchdb.start()`. -/
  | couchStart
  /-- The call `couchdb.stop()`. -/
  | couchStop
  /-- The call `process.exit(code)`. -/
  | processExit (code : Option Nat)
  /-- The host process ends with this exit code (`process.reallyExit`). -/
  | terminated (code : Nat)
  deriving DecidableEq, Repr

/-- The names of the events of the MultiCouch object. -/
inductive CouchEventName where
  | start
  | error
  | stop
  deriving DecidableEq, Repr

/-- An event emitted by the MultiCouch object, with its argument. -/
inductive CouchEvent where
  | start
  | error (err : JsError)
  | stop
  deriving DecidableEq, Repr

/-- The name under which an event is emitted. -/
def CouchEvent.name : CouchEvent → CouchEventName
  | .start => .start
  | .error _ => .error
  | .stop => .stop

/-- The first argument a listener of the event receives (`undefined` when there is none). -/
def CouchEvent.arg : CouchEvent → Option JsError
  | .error err => some err
  | _ => none

/-- The names of the events of `process` that `startMultiCouch` listens to. -/
inductive ProcessEventName where
  | exit
  | SIGINT
  deriving DecidableEq, Repr

/-- An event emitted by `process`. -/
inductive ProcessEvent where
  | exit (code : Nat)
  | SIGINT
  deriving DecidableEq, Repr

/-- The name under which an event is emitted. -/
def ProcessEvent.name : ProcessEvent → ProcessEventName
  | .exit _ => .exit
  | .SIGINT => .SIGINT

/-- The first argument a listener of the event receives. -/
def ProcessEvent.arg : ProcessEvent → Option Nat
  | .exit code => some code
  | .SIGINT => none

/-- The function literals that `lib/couch.js` registers on the MultiCouch object. -/
inductive CouchListener where
  /-- The listener of lines 54-68, `couchdb.on('start', function () ...)`. -/
  | onStart
  /-- The listener of lines 71-79, `couchdb.on('error', function (err) ...)`. -/
  | onError
  /-- The completion callbacks of lines 83-85 and 91-93,
  `function () { process.exit(code); }`. -/
  | exitAfterStop (code : Option Nat)
  deriving DecidableEq, Repr

/-- The function literals that `startMultiCouch` registers on `process`. -/
inductive ProcessListener where
  /-- The listener of lines 82-86, `process.on('exit', function (code) ...)`. -/
  | onExit
  /-- The listener of lines 89-94, `process.on('SIGINT', function () ...)`. -/
  | onSigint
  deriving DecidableEq, Repr

/-- An entry of the listener table of the MultiCouch object. -/
structure Registration where
  event : CouchEventName
  once : Bool
  listener : CouchListener
  deriving DecidableEq, Repr

/-- A callback queued with `process.nextTick`. -/
inductive TickTask where
  | startupCallback
  deriving DecidableEq, Repr

/-- The state of the host process as far as `lib/couch.js` reads and writes it. -/
structure Host where
  /-- The effects so far, oldest first. -/
  trace : List Effect
  /-- The queue of `process.nextTick`. -/
  nextTicks : List TickTask
  /-- The variable `couchdb`: the MultiCouch object, once constructed. -/
  couchdb : Option CouchCfg
  /-- The variable `started` of `startMultiCouch`. -/
  started : Bool
  /-- The listeners registered on the MultiCouch object, in registration order. -/
  couchListeners : List Registration
  /-- The listeners registered on `process`, in registration order. -/
  processListeners : List (ProcessEventName × ProcessListener)
  /-- The flag `process._exiting`. -/
  exiting : Bool
  /-- The exit code, once the host process has ended. -/
  exitCode : Option Nat
  deriving DecidableEq, Repr

/-- A fresh host process: nothing done, nothing registered. -/
def Host.init : Host :=
  { trace := [], nextTicks := [], couchdb := none, started := false,
    couchListeners := [], processListeners := [], exiting := false, exitCode := none }

/-- Record an effect. -/
def Host.emit (h : Host) (e : Effect) : Host :=
  { h with trace := h.trace ++ [e] }

/-- The call `couchdb.on(event, listener)`. -/
def Host.couchOn (h : Host) (event : CouchEventName) (listener : CouchListener) : Host :=
  { h with couchListeners := h.couchListeners ++ [⟨event, false, listener⟩] }

/-- The call `couchdb.once(event, listener)`. -/
def Host.couchOnce (h : Host) (event : CouchEventName) (listener : CouchListener) : Host :=
  { h with couchListeners := h.couchListeners ++ [⟨event, true, listener⟩] }

/-- The call `process.on(event, listener)`. -/
def Host.processOn (h : Host) (event : ProcessEventName) (listener : ProcessListener) : Host :=
  { h with processListeners := h.processListeners ++ [(event, listener)] }

/-- The call `process.reallyExit(code)`: the host process ends. -/
def Host.reallyExit (h : Host) (code : Nat) : Host :=
  { h.emit (.terminated code) with exitCode := some code }

/-! ## `lib/couch.js` -/

/-- The function `exports.startMultiCouch`.  The result is the returned MultiCouch
object; `none` stands for the early returns, which hand back no such object. -/
def startMultiCouch (config : Config) (h : Host) : Option CouchCfg × Host :=
  if !config.couch.run then
    let h := h.emit (.log [.text ("Using remote CouchDB: " ++ config.couch.url)])
    (none, { h with nextTicks := h.nextTicks ++ [.startupCallback] })
  else
    let couch_cfg : CouchCfg :=
      { port := config.couch.port
        prefixDir := config.hoodie.app_path
        couchdb_path := config.couch.bin
        default_sys_ini := config.couch.default_ini
        respawn := false
        session_timeout := toString (60 * 60 * 24 * 2) }
    if !couch_cfg.couchdb_path.truthy then
      (none, h.emit (.callback (some ⟨"No CouchDB binary found"⟩)))
    else if !couch_cfg.default_sys_ini.truthy then
      (none, h.emit (.callback (some ⟨"No CouchDB default.ini found"⟩)))
    else
      let h := { h.emit (.newMultiCouch couch_cfg) with couchdb := some couch_cfg }
      let h := { h with started := false }
      let h := h.couchOn .start .onStart
      let h := h.couchOn .error .onError
      let h := h.processOn .exit .onExit
      let h := h.processOn .SIGINT .onSigint
      let h := h.emit .couchStart
      (some couch_cfg, h)

/-- The function `exports.stop(couchdb, callback)`. -/
def stop (callback : CouchListener) (h : Host) : Host :=
  let h := h.emit (.log [.text "\nStopping CouchDB..."])
  let h := h.couchOnce .stop callback
  h.emit .couchStop

/-- The body of a listener registered on `process`, run on an event. -/
def ProcessListener.run : ProcessListener → ProcessEvent → Host → Host
  | .onExit, ev, h => stop (.exitAfterStop ev.arg) h
  | .onSigint, _, h =>
    let h := h.emit (.log [.text "sigint", .arguments])
    stop (.exitAfterStop (some 0)) h

/-- The call `process.emit(ev)`: the listeners of the event run in registration order,
as long as the process is alive. -/
def Host.processEmit (h : Host) (ev : ProcessEvent) : Host :=
  (h.processListeners.filter (fun r => decide (r.1 = ev.name))).foldl
    (fun h r => if h.exitCode.isSome then h else r.2.run ev h) h

/-- The call `process.exit(code)` of Node.js: unless the process is already exiting, the
event `exit` is emitted with `code || 0`; then the process ends with `code || 0`. -/
def processExit (code : Option Nat) (h : Host) : Host :=
  let h := h.emit (.processExit code)
  if h.exiting then h.reallyExit (code.getD 0)
  else
    let h := { h with exiting := true }
    let h := h.processEmit (.exit (code.getD 0))
    if h.exitCode.isSome then h else h.reallyExit (code.getD 0)

/-- The body of a listener registered on the MultiCouch object, run on an event. -/
def CouchListener.run (config : Config) : CouchListener → CouchEvent → Host → Host
  | .onStart, _, h =>
    let h :=
      if config.local_tld then
        h.emit (.log [.text ("CouchDB started: " ++ config.couch.local_url)])
      else
        h.emit (.log [.text ("CouchDB started: " ++ "http://" ++ config.host ++ ":"
          ++ toString config.couch.port)])
    let h := { h with started := true }
    h.emit (.callback none)
  | .onError, ev, h =>
    if !h.started then h.emit (.callback ev.arg)
    else h.emit (.log [.text "CouchDB Error: %j", .value ev.arg])
  | .exitAfterStop code, _, h => processExit code h

/-- The call `couchdb.emit(ev)`: the listeners of the event run in registration order, a
listener registered with `once` being removed before it runs. -/
def Host.couchEmit (config : Config) (h : Host) (ev : CouchEvent) : Host :=
  let listeners := h.couchListeners.filter (fun r => decide (r.event = ev.name))
  let h := { h with couchListeners :=
    h.couchListeners.filter (fun r => !(decide (r.event = ev.name) && r.once)) }
  listeners.foldl (fun h r => if h.exitCode.isSome then h else r.listener.run config ev h) h

/-- The tasks queued with `process.nextTick` run, in order. -/
def Host.runNextTicks (h : Host) : Host :=
  h.nextTicks.foldl (fun h task =>
    match task with
    | .startupCallback => h.emit (.callback none)) { h with nextTicks := [] }

/-- What the environment can do to the host process between two of its turns. -/
inductive Stimulus where
  /-- The event loop reaches the next tick. -/
  | tick
  /-- The managed process, through MultiCouch, emits an event. -/
  | couch (ev : CouchEvent)
  /-- The host process receives the interrupt signal. -/
  | sigint
  deriving DecidableEq, Repr

/-- One turn of the host process.  A process that has ended does nothing. -/
def Host.deliver (config : Config) (h : Host) (s : Stimulus) : Host :=
  if h.exitCode.isSome then h
  else
    match s with
    | .tick => h.runNextTicks
    | .couch ev => h.couchEmit config ev
    | .sigint => h.processEmit .SIGINT

/-- The host process after a sequence of turns. -/
def Host.run (config : Config) (h : Host) (stimuli : List Stimulus) : Host :=
  stimuli.foldl (Host.deliver config) h

/-- The number of invocations of the startup callback in a trace. -/
def callbackCount (trace : List Effect) : Nat :=
  (trace.filter (fun e => match e with | .callback _ => true | _ => false)).length

/-- The number of calls of `couchdb.stop()` in a trace. -/
def stopCount (trace : List Effect) : Nat :=
  (trace.filter (fun e => decide (e = .couchStop))).length

/-- The number of `error` events of a sequence that come before its first `start` event. -/
def errorsBeforeStart : List CouchEvent → Nat
  | [] => 0
  | .start :: _ => 0
  | .error _ :: rest => errorsBeforeStart rest + 1
  | .stop :: rest => errorsBeforeStart rest

/-- The number of `start` events of a sequence. -/
def startEvents (events : List CouchEvent) : Nat :=
  events.count .start

/-- The error `checkCouchVersion` reports for an outdated CouchDB. -/
def outOfDateError : JsError :=
  ⟨"The version of CouchDB you are using is out of date.\n" ++
    "Please update to the latest version of CouchDB.\n"⟩

/-- The function `exports.checkCouchVersion`: the calls it makes, or `none` when
`config.couch.version` is not a plain version string. -/
def checkCouchVersion (config : Config) : Option (List Effect) :=
  match config.couch.version with
  | none => none
  | some version =>
    match semverGte version "1.2.0" with
    | none => none
    | some compatible =>
      if compatible then some [.callback none]
      else some [.callback (some outOfDateError)]

/-- The configuration once `version` has been observed: `config.couch.version`
holds it. -/
def Config.observing (config : Config) (version : String) : Config :=
  { config with couch := { config.couch with version := some version } }

/-! ## `pollCouch`

Time is a clock in milliseconds.  The environment of `pollCouch` is the sequence of
its probes: how long each `request` takes to call back, with what, and by how much the
timer set after it fires late. -/

/-- What the callback of `request` receives: an error and no response, or a response with
its status code and its body.  The body is given by the fields of the JSON object it
spells, `none` for a text that `JSON.parse` rejects. -/
inductive ProbeOutcome where
  | failure (err : JsError)
  | response (statusCode : Nat) (body : Option (List (String × String)))
  deriving DecidableEq, Repr

/-- The test `res && res.statusCode === 200`. -/
def ProbeOutcome.ready : ProbeOutcome → Bool
  | .response statusCode _ => decide (statusCode = 200)
  | .failure _ => false

/-- One probe of the endpoint. -/
structure Probe where
  /-- Milliseconds between the call of `request` and the call of its callback. -/
  latency : Nat
  outcome : ProbeOutcome
  /-- Milliseconds by which the timer set after this probe fires later than asked. -/
  timerDelay : Nat
  deriving DecidableEq, Repr

/-- A call made by `pollCouch` on the outside world, or a write to the configuration. -/
inductive PollEffect where
  /-- The call `hconsole.spinner(label, end)`. -/
  | spinner (label : String) (deadline : Nat)
  /-- The call `console.log(text)`. -/
  | log (text : String)
  /-- The call `request(url, ...)`, made at the given time. -/
  | request (url : String) (time : Nat)
  /-- The assignment `config.couch.version = ...`. -/
  | setVersion (version : Option String)
  /-- The call `spinner.success()`. -/
  | spinnerSuccess
  /-- The call `spinner.failed()`. -/
  | spinnerFailed
  /-- An invocation of the callback of `pollCouch`, made at the given time. -/
  | callback (time : Nat) (err : Option JsError)
  /-- The call `setTimeout(_poll, ms)`. -/
  | setTimeout (ms : Nat)
  /-- The exception `JSON.parse` throws on a body that is no JSON text. -/
  | jsonParseThrows
  deriving DecidableEq, Repr

/-- The configuration object, which `pollCouch` writes to, and the effects so far. -/
structure PollState where
  config : Config
  trace : List PollEffect
  deriving DecidableEq, Repr

/-- Record an effect. -/
def PollState.emit (s : PollState) (e : PollEffect) : PollState :=
  { s with trace := s.trace ++ [e] }

/-- The timeout of `pollCouch`, in milliseconds. -/
def pollTimeout : Nat := 20000

/-- The variable `interval` of `pollCouch`, in milliseconds. -/
def interval : Nat := 200

/-- The array `logfiles`; `resolve` is `path.resolve`. -/
def logfiles (resolve : String → String → String) (config : Config) : List String :=
  [ "\t" ++ resolve config.hoodie.app_path "couch.stderr",
    "\t" ++ resolve config.hoodie.app_path "couch.stdout",
    "\t" ++ resolve config.hoodie.app_path "couch.log" ]

/-- The error `pollCouch` reports when it gives up, for the array `logfiles`. -/
def timeoutError (logs : List String) : JsError :=
  ⟨"Timed out waiting for CouchDB. " ++ "These logs may help:\n" ++
    String.intercalate "\n" logs⟩

/-- The function `_poll` of `pollCouch`, called at time `now`, with the probes still to
come in `env` (`env 0` answers the request made by this call).  The variables `end` and
`logfiles` of `pollCouch` are `deadline` and `logs`. -/
def poll (logs : List String) (deadline : Nat) (env : Nat → Probe)
    (now : Nat) (s : PollState) : PollState :=
  let s := s.emit (.request s.config.couch.url now)
  let answered := now + (env 0).latency
  match (env 0).outcome with
  | .response 200 body =>
    match body with
    | none => s.emit .jsonParseThrows
    | some fields =>
      let version := fields.lookup "version"
      let s := { s with config := { s.config with couch := { s.config.couch with version := version } } }
      let s := s.emit (.setVersion version)
      let s := if !s.config.boring then s.emit .spinnerSuccess else s
      s.emit (.callback answered none)
  | _ =>
    if deadline ≤ answered then
      let s := if !s.config.boring then s.emit .spinnerFailed else s
      s.emit (.callback answered (some (timeoutError logs)))
    else
      poll logs deadline (fun k => env (k + 1)) (answered + interval + (env 0).timerDelay)
        (s.emit (.setTimeout interval))
termination_by deadline - now
decreasing_by simp only [interval]; omega

/-- The function `exports.pollCouch`, called at time `now`; `resolve` is `path.resolve`. -/
def pollCouch (resolve : String → String → String) (env : Nat → Probe) (now : Nat)
    (config : Config) : PollState :=
  let deadline := now + pollTimeout
  let logs := logfiles resolve config
  let s : PollState := ⟨config, []⟩
  let s :=
    if !config.boring then s.emit (.spinner "Waiting for CouchDB" deadline)
    else s.emit (.log "Waiting for CouchDB...")
  poll logs deadline env now s

/-- The time at which the `k`-th request (counted from 0) is made, when polling starts at
`now` and no earlier probe ended it. -/
def issueTime (env : Nat → Probe) (now : Nat) : Nat → Nat
  | 0 => now
  | k + 1 => issueTime env now k + (env k).latency + interval + (env k).timerDelay

/-- The time at which the `k`-th request is answered. -/
def answerTime (env : Nat → Probe) (now : Nat) (k : Nat) : Nat :=
  issueTime env now k + (env k).latency

/-- The requests and timers of `n` probes that each end in a retry, the first request
being made at `now`. -/
def retryTrace (url : String) (env : Nat → Probe) (now : Nat) : Nat → List PollEffect
  | 0 => []
  | n + 1 =>
    PollEffect.request url now :: PollEffect.setTimeout interval ::
      retryTrace url (fun k => env (k + 1))
        (now + (env 0).latency + interval + (env 0).timerDelay) n

/-- The times of the requests of a trace, in order. -/
def requestTimes : List PollEffect → List Nat
  | [] => []
  | .request _ time :: rest => time :: requestTimes rest
  | _ :: rest => requestTimes rest

/-- The invocations of the callback in a trace, in order: time and error. -/
def callbacks : List PollEffect → List (Nat × Option JsError)
  | [] => []
  | .callback time err :: rest => (time, err) :: callbacks rest
  | _ :: rest => callbacks rest

/-- The values written to `config.couch.version` in a trace, in order. -/
def versionWrites : List PollEffect → List (Option String)
  | [] => []
  | .setVersion version :: rest => version :: versionWrites rest
  | _ :: rest => versionWrites rest

/-! ## `proxy` -/

/-- An inbound HTTP request, as far as the code reads and writes it. -/
structure Request where
  url : String
  method : String
  headers : List (String × String)
  body : String
  deriving DecidableEq, Repr

/-- An HTTP response object, identified by a number. -/
structure Response where
  id : Nat
  deriving DecidableEq, Repr

/-- The object `target`. -/
structure Target where
  port : Nat
  host : String
  deriving DecidableEq, Repr

/-- The options of `new http_proxy.HttpProxy`. -/
structure HttpProxyOptions where
  target : Target
  changeOrigin : Bool
  timeout : Nat
  deriving DecidableEq, Repr

/-- A call made by `proxy`, or by the function it returns, on `http-proxy`. -/
inductive ProxyEffect where
  /-- The call `http_proxy.setMaxSockets(n)`. -/
  | setMaxSockets (n : Nat)
  /-- The construction `new http_proxy.HttpProxy(options)`. -/
  | newHttpProxy (options : HttpProxyOptions)
  /-- The call `proxy.proxyRequest(req, res)` on the proxy built with `options`. -/
  | proxyRequest (options : HttpProxyOptions) (req : Request) (res : Response)
  deriving DecidableEq, Repr

/-- The function `exports.proxy`: the calls it makes, and the function it returns, which
yields the request after its assignment and the calls it makes. -/
def proxy (config : Config) :
    List ProxyEffect × (String → Request → Response → Request × List ProxyEffect) :=
  let target : Target := { port := config.couch.port, host := config.couch.host }
  let options : HttpProxyOptions := { target := target, changeOrigin := true, timeout := 60000 }
  ([.setMaxSockets 1024, .newHttpProxy options],
    fun url req res =>
      let req := { req with url := url }
      (req, [.proxyRequest options req res]))

/-! ## `lib/nodejitsu_server.js` -/

/-- The two servers a request can be handed to, `config.admin_server` and
`config.www_server`. -/
inductive Server where
  | admin_server
  | www_server
  deriving DecidableEq, Repr

/-- The call `server.emit(event, req, res)`. -/
structure ServerEmit where
  server : Server
  event : String
  req : Request
  res : Response
  deriving DecidableEq, Repr

/-- The conversion of a header value to a string, as `RegExp.prototype.test` does it:
an absent header reads `undefined`. -/
def headerToString : Option String → String
  | some value => value
  | none => "undefined"

/-- The test `/^admin\./.test(host)`. -/
def adminPattern (host : Option String) : Bool :=
  "admin.".data.isPrefixOf (headerToString host).data

/-- The expression `req.headers.host`. -/
def Request.host (req : Request) : Option String :=
  req.headers.lookup "host"

/-- The request listener of `http.createServer` in `lib/nodejitsu_server.js`. -/
def requestListener (req : Request) (res : Response) : List ServerEmit :=
  if adminPattern req.host then
    [⟨.admin_server, "request", req, res⟩]
  else
    [⟨.www_server, "request", req, res⟩]

/-- The function `path.resolve` on an absolute directory without dot segments and a file
name, used for examples. -/
def exampleResolve (dir file : String) : String :=
  dir ++ "/" ++ file

/-- An endpoint that answers at once, 503 to the first 101 requests and then 200 with the
version 1.2.0, under timers that fire on time. -/
def stubbornEnv (k : Nat) : Probe :=
  if k < 101 then ⟨0, .response 503 none, 0⟩
  else ⟨0, .response 200 (some [("version", "1.2.0")]), 0⟩

/-- An endpoint on which every request fails after 30 seconds. -/
def slowEnv (_ : Nat) : Probe :=
  ⟨30000, .failure ⟨"ETIMEDOUT"⟩, 0⟩

/-- An endpoint that refuses two connections, 10 ms each, and then answers 200 with the
version 1.2.0; the timers fire 5 ms late. -/
def warmingEnv (k : Nat) : Probe :=
  if k < 2 then ⟨10, .failure ⟨"ECONNREFUSED"⟩, 5⟩
  else ⟨10, .response 200 (some [("version", "1.2.0")]), 0⟩

/-- A configuration with local CouchDB, used for examples. -/
def exampleConfig : Config :=
  { couch := { run := true, url := "http://127.0.0.1:6003", host := "127.0.0.1", port := 6003,
               bin := .str "/usr/bin/couchdb", default_ini := .str "/etc/couchdb/default.ini",
               local_url := "http://couch.app.dev", version := none }
    hoodie := { app_path := "/srv/app" }
    host := "127.0.0.1"
    local_tld := false
    boring := true }

/-- The example configuration for a remote CouchDB: `couch.run` is `false`. -/
def remoteConfig : Config :=
  { exampleConfig with couch := { exampleConfig.couch with run := false } }

/-- The example configuration with an empty path of the CouchDB executable. -/
def noBinaryConfig : Config :=
  { exampleConfig with couch := { exampleConfig.couch with bin := .str "" } }

/-! ## Predicates used by the proofs -/

/-- What makes `cs` the decimal numeral of `n`, without leading zero. -/
structure Numeral (cs : List Char) (n : Nat) : Prop where
  nonempty : cs ≠ []
  digits : cs.all Char.isDigit = true
  leading : n ≠ 0 → cs.head? ≠ some '0'
  short : n < 10 → cs.length = 1
  value : numericValue cs = n
  noDot : '.' ∉ cs

/-- The host as `startMultiCouch` leaves it after a successful call, and as it stays while
MultiCouch emits events: the two listeners registered, the process alive. -/
structure Supervising (h : Host) : Prop where
  listeners : h.couchListeners = [⟨.start, false, .onStart⟩, ⟨.error, false, .onError⟩]
  hooks : h.processListeners = [(.exit, .onExit), (.SIGINT, .onSigint)]
  running : h.exiting = false
  alive : h.exitCode = none

/-- The text logged by the `start` listener. -/
def startedMessage (config : Config) : String :=
  if config.local_tld then "CouchDB started: " ++ config.couch.local_url
  else "CouchDB started: " ++ "http://" ++ config.host ++ ":" ++ toString config.couch.port

/-- The first effect of `pollCouch`: the waiting indicator. -/
def waitingIndicator (config : Config) (now : Nat) : PollEffect :=
  if config.boring then PollEffect.log "Waiting for CouchDB..."
  else PollEffect.spinner "Waiting for CouchDB" (now + pollTimeout)

/-! ## Decimal numerals -/

theorem toDigitsCore_append (fuel : Nat) : ∀ (n : Nat) (ds : List Char),
    Nat.toDigitsCore 10 fuel n ds = Nat.toDigitsCore 10 fuel n [] ++ ds := by
  induction fuel with
  | zero => intro n ds; simp [Nat.toDigitsCore]
  | succ f ih =>
    intro n ds
    simp only [Nat.toDigitsCore]
    split
    · simp
    · rw [ih (n / 10) (Nat.digitChar (n % 10) :: ds), ih (n / 10) [Nat.digitChar (n % 10)]]
      simp

theorem toDigitsCore_fuel (f1 : Nat) : ∀ (f2 n : Nat) (ds : List Char), n < f1 → n < f2 →
    Nat.toDigitsCore 10 f1 n ds = Nat.toDigitsCore 10 f2 n ds := by
  induction f1 with
  | zero => intro f2 n ds h; omega
  | succ f ih =>
    intro f2 n ds h1 h2
    cases f2 with
    | zero => omega
    | succ g =>
      simp only [Nat.toDigitsCore]
      split
      · rfl
      · exact ih g (n / 10) _ (by omega) (by omega)

theorem toDigits_small (n : Nat) (h : n < 10) : Nat.toDigits 10 n = [Nat.digitChar n] := by
  have h0 : n / 10 = 0 := by omega
  have h1 : n % 10 = n := by omega
  simp [Nat.toDigits, Nat.toDigitsCore, h0, h1]

theorem toDigits_step (n : Nat) (h : 10 ≤ n) :
    Nat.toDigits 10 n = Nat.toDigits 10 (n / 10) ++ [Nat.digitChar (n % 10)] := by
  have h0 : n / 10 ≠ 0 := by omega
  have h1 : Nat.toDigits 10 n
      = Nat.toDigitsCore 10 n (n / 10) [Nat.digitChar (n % 10)] := by
    simp [Nat.toDigits, Nat.toDigitsCore, h0]
  have h2 : Nat.toDigits 10 (n / 10) = Nat.toDigitsCore 10 (n / 10 + 1) (n / 10) [] := rfl
  rw [h1, h2, toDigitsCore_append,
    toDigitsCore_fuel n (n / 10 + 1) (n / 10) [] (by omega) (by omega)]

theorem digitChar_spec : ∀ d : Nat, d < 10 →
    (Nat.digitChar d).isDigit = true ∧ (Nat.digitChar d).toNat - '0'.toNat = d ∧
    Nat.digitChar d ≠ '.' ∧ (d ≠ 0 → Nat.digitChar d ≠ '0') := by
  decide

theorem numericValue_snoc (cs : List Char) (c : Char) :
    numericValue (cs ++ [c]) = numericValue cs * 10 + (c.toNat - '0'.toNat) := by
  simp [numericValue, List.foldl_append]

theorem toDigits_numeral (n : Nat) : Numeral (Nat.toDigits 10 n) n := by
  induction n using Nat.strong_induction_on with
  | _ n ih =>
    by_cases h : n < 10
    · obtain ⟨h1, h2, h3, h4⟩ := digitChar_spec n h
      rw [toDigits_small n h]
      refine ⟨by simp, by simpa using h1, ?_, by simp, ?_, ?_⟩
      · intro hn; simpa using h4 hn
      · simpa [numericValue] using h2
      · simpa using fun h => h3 h.symm
    · have hq := ih (n / 10) (by omega)
      obtain ⟨h1, h2, h3, h4⟩ := digitChar_spec (n % 10) (by omega)
      rw [toDigits_step n (by omega)]
      refine ⟨by simp, ?_, ?_, by omega, ?_, ?_⟩
      · simpa [List.all_append, hq.digits] using h1
      · intro _
        have hl := hq.leading (by omega)
        have hne := hq.nonempty
        cases hd : Nat.toDigits 10 (n / 10) with
        | nil => exact absurd hd hne
        | cons c rest => rw [hd] at hl; simpa using hl
      · rw [numericValue_snoc, hq.value, h2]; omega
      · have := hq.noDot
        simp only [List.mem_append, List.mem_singleton, not_or]
        exact ⟨this, fun h => h3 h.symm⟩

theorem numeral_isNumericIdentifier {cs : List Char} {n : Nat} (h : Numeral cs n) :
    isNumericIdentifier cs = true := by
  obtain ⟨h1, h2, h3, h4, -, -⟩ := h
  match cs, h1 with
  | [c], _ => simpa [isNumericIdentifier] using h2
  | c :: d :: rest, _ =>
    have hn : n ≠ 0 := by
      intro h0
      have := h4 (by omega)
      simp at this
    have := h3 hn
    simp only [List.all_cons, Bool.and_eq_true] at h2
    simp only [isNumericIdentifier, List.all_cons, Bool.and_eq_true, bne_iff_ne]
    refine ⟨⟨h2.1, by simpa using this⟩, h2.2⟩

theorem versionString_data (a b c : Nat) : (versionString a b c).data
    = Nat.toDigits 10 a ++ '.' :: (Nat.toDigits 10 b ++ '.' :: Nat.toDigits 10 c) := by
  simp [versionString, toString, Nat.repr, List.asString, String.data_append]

theorem splitOnDot_noDot (cs : List Char) (h : '.' ∉ cs) : splitOnDot cs = [cs] := by
  induction cs with
  | nil => rfl
  | cons c cs ih =>
    simp only [List.mem_cons, not_or] at h
    have hc : c ≠ '.' := fun e => h.1 e.symm
    simp [splitOnDot, hc, ih h.2]

theorem splitOnDot_append (cs rest : List Char) (h : '.' ∉ cs) :
    splitOnDot (cs ++ '.' :: rest) = cs :: splitOnDot rest := by
  induction cs with
  | nil => simp [splitOnDot]
  | cons c cs ih =>
    simp only [List.mem_cons, not_or] at h
    have hc : c ≠ '.' := fun e => h.1 e.symm
    simp [splitOnDot, hc, ih h.2]

/-- Parsing the text of `major.minor.patch` gives the three numbers back. -/
theorem parse_versionString (a b c : Nat) :
    SemVer.parse (versionString a b c) = some ⟨a, b, c⟩ := by
  have ha := toDigits_numeral a
  have hb := toDigits_numeral b
  have hc := toDigits_numeral c
  simp only [SemVer.parse, versionString_data, splitOnDot_append _ _ ha.noDot,
    splitOnDot_append _ _ hb.noDot, splitOnDot_noDot _ hc.noDot,
    numeral_isNumericIdentifier ha, numeral_isNumericIdentifier hb,
    numeral_isNumericIdentifier hc, ha.value, hb.value, hc.value]
  simp

theorem semverGte_versionString (a b c : Nat) :
    semverGte (versionString a b c) "1.2.0"
      = some (decide (1 < a ∨ (a = 1 ∧ 2 < b) ∨ (a = 1 ∧ b = 2 ∧ 0 ≤ c))) := by
  have h120 : SemVer.parse "1.2.0" = some ⟨1, 2, 0⟩ := by decide
  simp only [semverGte, parse_versionString, h120]
  congr 1
  simp only [SemVer.compareMain, compareIdentifiers, decide_eq_decide]
  constructor
  · intro h
    by_contra hn
    have : a < 1 ∨ (a = 1 ∧ b < 2) := by omega
    rcases this with h1 | ⟨h1, h2⟩
    · simp [h1] at h
    · subst h1; simp [h2] at h
  · intro h
    rcases h with h | ⟨h1, h2⟩ | ⟨h1, h2, -⟩
    · have h1 : ¬ a < 1 := by omega
      simp [h1, h]
    · subst h1
      have h3 : ¬ b < 2 := by omega
      simp [h3, h2]
    · subst h1; subst h2; simp; split <;> decide

/-! ## VersionGate -/

/-- C1. For every version string `major.minor.patch` (three numbers in decimal, no
pre-release tag), `checkCouchVersion` invokes its callback exactly once: without error
when `(major, minor, patch)` is at least `(1, 2, 0)` in semantic-version order, with the
out-of-date error otherwise.  In particular `1.2.0` and `1.3.0` pass and `1.1.9` fails. -/
theorem checkCouchVersion_versionGate (config : Config) (major minor patch : Nat) :
    checkCouchVersion (config.observing (versionString major minor patch))
      = some [Effect.callback
          (if 1 < major ∨ (major = 1 ∧ 2 < minor) ∨ (major = 1 ∧ minor = 2 ∧ 0 ≤ patch)
            then none else some outOfDateError)]
    ∧ (checkCouchVersion (config.observing (versionString major minor patch))
        = some [Effect.callback none]
      ↔ (1 < major ∨ (major = 1 ∧ 2 < minor) ∨ (major = 1 ∧ minor = 2 ∧ 0 ≤ patch)))
    ∧ checkCouchVersion (config.observing "1.2.0") = some [Effect.callback none]
    ∧ checkCouchVersion (config.observing "1.1.9") = some [Effect.callback (some outOfDateError)]
    ∧ checkCouchVersion (config.observing "1.3.0") = some [Effect.callback none] := by
  have key : checkCouchVersion (config.observing (versionString major minor patch))
      = some [Effect.callback
          (if 1 < major ∨ (major = 1 ∧ 2 < minor) ∨ (major = 1 ∧ minor = 2 ∧ 0 ≤ patch)
            then none else some outOfDateError)] := by
    simp only [checkCouchVersion, Config.observing, semverGte_versionString]
    by_cases h : 1 < major ∨ (major = 1 ∧ 2 < minor) ∨ (major = 1 ∧ minor = 2 ∧ 0 ≤ patch)
    · rw [if_pos h, decide_eq_true h]; rfl
    · rw [if_neg h, decide_eq_false h]; rfl
  refine ⟨key, ?_, ?_, ?_, ?_⟩
  · rw [key]
    by_cases h : 1 < major ∨ (major = 1 ∧ 2 < minor) ∨ (major = 1 ∧ minor = 2 ∧ 0 ≤ patch)
    · rw [if_pos h]; exact ⟨fun _ => h, fun _ => rfl⟩
    · rw [if_neg h]
      refine ⟨fun e => ?_, fun e => absurd e h⟩
      simp at e
  · have h : semverGte "1.2.0" "1.2.0" = some true := by decide
    simp [checkCouchVersion, Config.observing, h]
  · have h : semverGte "1.1.9" "1.2.0" = some false := by decide
    simp [checkCouchVersion, Config.observing, h]
  · have h : semverGte "1.3.0" "1.2.0" = some true := by decide
    simp [checkCouchVersion, Config.observing, h]

/-! ## SubdomainRouter -/

theorem adminPattern_iff (host : Option String) :
    adminPattern host = true ↔ ∃ rest : String, host = some ("admin." ++ rest) := by
  cases host with
  | none => simp only [reduceCtorEq, exists_false, iff_false]; decide
  | some value =>
    simp only [adminPattern, headerToString, List.isPrefixOf_iff_prefix, Option.some.injEq]
    constructor
    · rintro ⟨t, ht⟩
      exact ⟨⟨t⟩, String.ext (by rw [String.data_append, ← ht])⟩
    · rintro ⟨rest, rfl⟩
      exact ⟨rest.data, by rw [String.data_append]⟩

/-- C2. The request listener hands every request to exactly one server, by one `request`
event carrying that request and response: to the admin server if and only if the Host
header begins with `admin.`, to the www server otherwise, an absent Host header included.
The server is a function of the Host header alone.  Host `admin.example.com` goes to the
admin server, host `example.com` to the www server. -/
theorem requestListener_routes_by_host (req : Request) (res : Response) :
    requestListener req res
      = [⟨if adminPattern req.host then Server.admin_server else Server.www_server,
          "request", req, res⟩]
    ∧ (requestListener req res = [⟨Server.admin_server, "request", req, res⟩]
        ↔ ∃ rest : String, req.host = some ("admin." ++ rest))
    ∧ (requestListener req res = [⟨Server.www_server, "request", req, res⟩]
        ↔ ¬ ∃ rest : String, req.host = some ("admin." ++ rest))
    ∧ adminPattern none = false
    ∧ adminPattern (some "admin.example.com") = true
    ∧ adminPattern (some "example.com") = false := by
  refine ⟨?_, ?_, ?_, by decide, by decide, by decide⟩
  · unfold requestListener; split <;> rfl
  · rw [← adminPattern_iff]
    unfold requestListener
    by_cases h : adminPattern req.host = true
    · simp [h]
    · simp [h]
  · rw [← adminPattern_iff]
    unfold requestListener
    by_cases h : adminPattern req.host = true
    · simp [h]
    · simp [h]

/-! ## ProxyDispatcher -/

/-- C10. The function returned by `proxy(config)` sets the url of the request to the new
path, leaves method, headers and body as they were, and makes exactly one call, of
`proxyRequest` with that request and response, on the proxy that `proxy(config)` built for
the target `config.couch.host`, `config.couch.port`. -/
theorem proxy_forwards_once (config : Config) (url : String) (req : Request) (res : Response) :
    (proxy config).1
      = [ProxyEffect.setMaxSockets 1024,
         ProxyEffect.newHttpProxy
           ⟨⟨config.couch.port, config.couch.host⟩, true, 60000⟩]
    ∧ ((proxy config).2 url req res).1.url = url
    ∧ ((proxy config).2 url req res).1.method = req.method
    ∧ ((proxy config).2 url req res).1.headers = req.headers
    ∧ ((proxy config).2 url req res).1.body = req.body
    ∧ ((proxy config).2 url req res).2
      = [ProxyEffect.proxyRequest ⟨⟨config.couch.port, config.couch.host⟩, true, 60000⟩
          ((proxy config).2 url req res).1 res] := by
  simp [proxy]

/-! ## ProcessSupervisor: the early returns of `startMultiCouch` -/

theorem truthy_eq_false_iff (v : JsVal) : v.truthy = false ↔ v.missing := by
  cases v <;> simp [JsVal.truthy, JsVal.missing]

/-- A host with nothing queued and nothing registered does nothing, whatever happens. -/
theorem run_inert (config : Config) (stimuli : List Stimulus) (h : Host)
    (hq : h.nextTicks = []) (hc : h.couchListeners = []) (hp : h.processListeners = []) :
    h.run config stimuli = h := by
  induction stimuli with
  | nil => rfl
  | cons s rest ih =>
    have hstep : h.deliver config s = h := by
      obtain ⟨trace, nextTicks, couchdb, started, cl, pl, exiting, exitCode⟩ := h
      simp only at hq hc hp
      subst hq hc hp
      unfold Host.deliver
      split
      · rfl
      · cases s <;> simp [Host.runNextTicks, Host.couchEmit, Host.processEmit]
    simp only [Host.run, List.foldl_cons, hstep]
    exact ih

/-- C3. With `couch.run == false`, `startMultiCouch` spawns nothing and succeeds: it
returns no MultiCouch object, constructs and starts none, installs no listener on
`process` (no `exit` or `SIGINT` hook) or elsewhere, and only logs and queues the
callback, which the next tick invokes without error; whatever happens afterwards, that
stays the only invocation and no further effect follows. -/
theorem startMultiCouch_remote_noop (config : Config) (hrun : config.couch.run = false)
    (later : List Stimulus) :
    (startMultiCouch config Host.init).1 = none
    ∧ (startMultiCouch config Host.init).2.trace
        = [Effect.log [LogItem.text ("Using remote CouchDB: " ++ config.couch.url)]]
    ∧ (startMultiCouch config Host.init).2.couchdb = none
    ∧ (startMultiCouch config Host.init).2.processListeners = []
    ∧ (startMultiCouch config Host.init).2.couchListeners = []
    ∧ ((startMultiCouch config Host.init).2.run config (Stimulus.tick :: later)).trace
        = [Effect.log [LogItem.text ("Using remote CouchDB: " ++ config.couch.url)],
           Effect.callback none]
    ∧ callbackCount
        ((startMultiCouch config Host.init).2.run config (Stimulus.tick :: later)).trace = 1 := by
  have hstart : startMultiCouch config Host.init
      = (none, { Host.init with
          trace := [Effect.log [LogItem.text ("Using remote CouchDB: " ++ config.couch.url)]]
          nextTicks := [TickTask.startupCallback] }) := by
    simp [startMultiCouch, hrun, Host.emit, Host.init]
  have hrunl : (startMultiCouch config Host.init).2.run config (Stimulus.tick :: later)
      = { Host.init with
          trace := [Effect.log [LogItem.text ("Using remote CouchDB: " ++ config.couch.url)],
            Effect.callback none] } := by
    rw [hstart]
    simp only [Host.run, List.foldl_cons]
    exact run_inert config later _ rfl rfl rfl
  rw [hrunl, hstart]
  refine ⟨rfl, rfl, rfl, rfl, rfl, rfl, ?_⟩
  simp [callbackCount, Host.init]

/-- A configuration with `couch.run == false`, a tick, and two later events. -/
theorem startMultiCouch_remote_noop_witness :
    remoteConfig.couch.run = false
    ∧ ((startMultiCouch remoteConfig Host.init).2.run remoteConfig
        [Stimulus.tick, Stimulus.sigint, Stimulus.couch CouchEvent.start]).trace
      = [Effect.log [LogItem.text ("Using remote CouchDB: " ++ remoteConfig.couch.url)],
         Effect.callback none] :=
  ⟨rfl, (startMultiCouch_remote_noop remoteConfig rfl
    [Stimulus.sigint, Stimulus.couch CouchEvent.start]).2.2.2.2.2.1⟩

/-- C4. With `couch.run == true` and the executable path or the default settings path
missing (`undefined`, `null` or empty), `startMultiCouch` fails before anything is
spawned: during the call itself it invokes the callback once, with the error
`No CouchDB binary found` when the executable path is missing and
`No CouchDB default.ini found` otherwise; it returns no MultiCouch object, constructs and
starts none, queues nothing and installs no listener, so that nothing follows later. -/
theorem startMultiCouch_missing_path (config : Config) (hrun : config.couch.run = true)
    (hmissing : config.couch.bin.missing ∨ config.couch.default_ini.missing)
    (later : List Stimulus) :
    (startMultiCouch config Host.init).1 = none
    ∧ (startMultiCouch config Host.init).2.trace
        = [Effect.callback (some ⟨if config.couch.bin.truthy then "No CouchDB default.ini found"
            else "No CouchDB binary found"⟩)]
    ∧ (startMultiCouch config Host.init).2.couchdb = none
    ∧ (startMultiCouch config Host.init).2.nextTicks = []
    ∧ (startMultiCouch config Host.init).2.processListeners = []
    ∧ (startMultiCouch config Host.init).2.couchListeners = []
    ∧ (startMultiCouch config Host.init).2.run config later
        = (startMultiCouch config Host.init).2 := by
  have hstart : startMultiCouch config Host.init
      = (none, { Host.init with
          trace := [Effect.callback (some ⟨if config.couch.bin.truthy
            then "No CouchDB default.ini found" else "No CouchDB binary found"⟩)] }) := by
    by_cases hb : config.couch.bin.truthy = true
    · have hi : config.couch.default_ini.truthy = false := by
        rcases hmissing with h | h
        · rw [(truthy_eq_false_iff _).2 h] at hb; exact absurd hb (by decide)
        · exact (truthy_eq_false_iff _).2 h
      simp [startMultiCouch, hrun, hb, hi, Host.emit, Host.init]
    · have hb : config.couch.bin.truthy = false := by simpa using hb
      simp [startMultiCouch, hrun, hb, Host.emit, Host.init]
  rw [hstart]
  exact ⟨rfl, rfl, rfl, rfl, rfl, rfl, run_inert config later _ rfl rfl rfl⟩

/-- A configuration whose executable path is the empty string. -/
theorem startMultiCouch_missing_path_witness :
    noBinaryConfig.couch.run = true
    ∧ (noBinaryConfig.couch.bin.missing ∨ noBinaryConfig.couch.default_ini.missing)
    ∧ (startMultiCouch noBinaryConfig Host.init).2.trace
      = [Effect.callback (some ⟨if noBinaryConfig.couch.bin.truthy
          then "No CouchDB default.ini found" else "No CouchDB binary found"⟩)] :=
  ⟨rfl, Or.inl (Or.inr (Or.inr rfl)),
    (startMultiCouch_missing_path noBinaryConfig rfl (Or.inl (Or.inr (Or.inr rfl))) []).2.1⟩

/-! ## ProcessSupervisor: the `start` and `error` listeners -/

/-- The state `startMultiCouch` leaves behind for a configuration it accepts. -/
theorem startMultiCouch_valid (config : Config) (hrun : config.couch.run = true)
    (hbin : config.couch.bin.truthy = true) (hini : config.couch.default_ini.truthy = true) :
    startMultiCouch config Host.init
      = (some ⟨config.couch.port, config.hoodie.app_path, config.couch.bin,
            config.couch.default_ini, false, "172800"⟩,
          { trace := [Effect.newMultiCouch ⟨config.couch.port, config.hoodie.app_path,
              config.couch.bin, config.couch.default_ini, false, "172800"⟩, Effect.couchStart]
            nextTicks := []
            couchdb := some ⟨config.couch.port, config.hoodie.app_path, config.couch.bin,
              config.couch.default_ini, false, "172800"⟩
            started := false
            couchListeners := [⟨.start, false, .onStart⟩, ⟨.error, false, .onError⟩]
            processListeners := [(.exit, .onExit), (.SIGINT, .onSigint)]
            exiting := false
            exitCode := none }) := by
  have h172800 : toString (60 * 60 * 24 * 2) = "172800" := by decide
  simp [startMultiCouch, hrun, hbin, hini, Host.emit, Host.init, Host.couchOn, Host.processOn,
    h172800]

theorem couchEmit_start (config : Config) (h : Host) (hs : Supervising h) :
    h.couchEmit config .start
      = { h with trace := h.trace ++ [Effect.log [LogItem.text (startedMessage config)],
                    Effect.callback none]
                 started := true } := by
  obtain ⟨hl, -, -, ha⟩ := hs
  obtain ⟨trace, nextTicks, couchdb, started, cl, pl, exiting, exitCode⟩ := h
  simp only at hl ha
  subst hl ha
  cases hc : config.local_tld <;>
    simp [Host.couchEmit, CouchEvent.name, CouchListener.run, Host.emit, startedMessage, hc]

theorem couchEmit_error (config : Config) (h : Host) (hs : Supervising h) (err : JsError) :
    h.couchEmit config (.error err)
      = { h with trace := h.trace ++
            (if h.started then [Effect.log [LogItem.text "CouchDB Error: %j",
                LogItem.value (some err)]]
             else [Effect.callback (some err)]) } := by
  obtain ⟨hl, -, -, ha⟩ := hs
  obtain ⟨trace, nextTicks, couchdb, started, cl, pl, exiting, exitCode⟩ := h
  simp only at hl ha
  subst hl ha
  cases started <;>
    simp [Host.couchEmit, CouchEvent.name, CouchEvent.arg, CouchListener.run, Host.emit]

theorem couchEmit_stop (config : Config) (h : Host) (hs : Supervising h) :
    h.couchEmit config .stop = h := by
  obtain ⟨hl, -, -, ha⟩ := hs
  obtain ⟨trace, nextTicks, couchdb, started, cl, pl, exiting, exitCode⟩ := h
  simp only at hl ha
  subst hl ha
  simp [Host.couchEmit, CouchEvent.name]

theorem callbackCount_append (a b : List Effect) :
    callbackCount (a ++ b) = callbackCount a + callbackCount b := by
  simp [callbackCount]

/-- What a sequence of MultiCouch events does to a supervising host. -/
theorem run_couch_events (config : Config) (events : List CouchEvent) :
    ∀ h : Host, Supervising h →
      Supervising (h.run config (events.map Stimulus.couch))
      ∧ (h.run config (events.map Stimulus.couch)).started
          = (h.started || events.contains CouchEvent.start)
      ∧ callbackCount (h.run config (events.map Stimulus.couch)).trace
          = callbackCount h.trace + startEvents events
            + (if h.started then 0 else errorsBeforeStart events) := by
  induction events with
  | nil => intro h hs; simp [Host.run, startEvents, errorsBeforeStart, hs]
  | cons ev rest ih =>
    intro h hs
    have hrun : h.run config ((ev :: rest).map Stimulus.couch)
        = (h.couchEmit config ev).run config (rest.map Stimulus.couch) := by
      simp [Host.run, Host.deliver, hs.alive]
    rw [hrun]
    cases ev with
    | start =>
      have hs2 : Supervising (h.couchEmit config .start) := by
        rw [couchEmit_start config h hs]; exact ⟨hs.listeners, hs.hooks, hs.running, hs.alive⟩
      obtain ⟨i1, i2, i3⟩ := ih _ hs2
      refine ⟨i1, ?_, ?_⟩
      · rw [i2, couchEmit_start config h hs]; simp
      · rw [i3, couchEmit_start config h hs]
        simp only [callbackCount_append, startEvents, List.count_cons_self, errorsBeforeStart]
        simp [callbackCount]
        omega
    | error err =>
      have hs2 : Supervising (h.couchEmit config (.error err)) := by
        rw [couchEmit_error config h hs]; exact ⟨hs.listeners, hs.hooks, hs.running, hs.alive⟩
      obtain ⟨i1, i2, i3⟩ := ih _ hs2
      refine ⟨i1, ?_, ?_⟩
      · rw [i2, couchEmit_error config h hs]; simp
      · rw [i3, couchEmit_error config h hs]
        cases hst : h.started <;>
          simp [callbackCount_append, startEvents, errorsBeforeStart, callbackCount]
        omega
    | stop =>
      rw [couchEmit_stop config h hs]
      obtain ⟨i1, i2, i3⟩ := ih h hs
      refine ⟨i1, ?_, ?_⟩
      · rw [i2]; simp
      · rw [i3]; simp [startEvents, errorsBeforeStart]

theorem supervising_after_start (config : Config) (hrun : config.couch.run = true)
    (hbin : config.couch.bin.truthy = true) (hini : config.couch.default_ini.truthy = true) :
    Supervising (startMultiCouch config Host.init).2
    ∧ (startMultiCouch config Host.init).2.started = false
    ∧ callbackCount (startMultiCouch config Host.init).2.trace = 0 := by
  rw [startMultiCouch_valid config hrun hbin hini]
  exact ⟨⟨rfl, rfl, rfl, rfl⟩, rfl, by simp [callbackCount]⟩

/-- C5, as the code has it. After `startMultiCouch` accepted the configuration, the startup
callback fires once for every `start` event and once for every `error` event that comes
before the first `start` event, and for no other event; it fires at most once exactly
when the sequence holds at most one such event, as when the process emits one `start`
that no `error` precedes, followed by any number of `error` events. -/
theorem startup_callback_count (config : Config) (hrun : config.couch.run = true)
    (hbin : config.couch.bin.truthy = true) (hini : config.couch.default_ini.truthy = true)
    (events : List CouchEvent) :
    callbackCount
        ((startMultiCouch config Host.init).2.run config (events.map Stimulus.couch)).trace
      = startEvents events + errorsBeforeStart events
    ∧ (callbackCount
        ((startMultiCouch config Host.init).2.run config (events.map Stimulus.couch)).trace ≤ 1
      ↔ startEvents events + errorsBeforeStart events ≤ 1) := by
  obtain ⟨hs, hst, hc⟩ := supervising_after_start config hrun hbin hini
  have h := (run_couch_events config events _ hs).2.2
  rw [hst, hc] at h
  have h2 : callbackCount
      ((startMultiCouch config Host.init).2.run config (events.map Stimulus.couch)).trace
      = startEvents events + errorsBeforeStart events := by
    rw [h]; simp
  exact ⟨h2, by rw [h2]⟩

/-- One `start` followed by two `error` events: the callback fires once. -/
theorem startup_callback_count_witness :
    exampleConfig.couch.run = true
    ∧ exampleConfig.couch.bin.truthy = true
    ∧ exampleConfig.couch.default_ini.truthy = true
    ∧ callbackCount
        ((startMultiCouch exampleConfig Host.init).2.run exampleConfig
          ([CouchEvent.start, CouchEvent.error ⟨"a"⟩, CouchEvent.error ⟨"b"⟩].map
            Stimulus.couch)).trace
      = startEvents [CouchEvent.start, CouchEvent.error ⟨"a"⟩, CouchEvent.error ⟨"b"⟩]
        + errorsBeforeStart [CouchEvent.start, CouchEvent.error ⟨"a"⟩, CouchEvent.error ⟨"b"⟩] :=
  ⟨rfl, by decide, by decide, (startup_callback_count exampleConfig rfl (by decide) (by decide)
    [CouchEvent.start, CouchEvent.error ⟨"a"⟩, CouchEvent.error ⟨"b"⟩]).1⟩

/-- Two `error` events before any `start` event: the startup callback fires twice. -/
theorem startup_callback_twice :
    ((startMultiCouch exampleConfig Host.init).2.run exampleConfig
        [Stimulus.couch (CouchEvent.error ⟨"first"⟩),
         Stimulus.couch (CouchEvent.error ⟨"second"⟩)]).trace
      = [Effect.newMultiCouch ⟨6003, "/srv/app", .str "/usr/bin/couchdb",
            .str "/etc/couchdb/default.ini", false, "172800"⟩,
         Effect.couchStart,
         Effect.callback (some ⟨"first"⟩),
         Effect.callback (some ⟨"second"⟩)]
    ∧ ¬ callbackCount
        ((startMultiCouch exampleConfig Host.init).2.run exampleConfig
          [Stimulus.couch (CouchEvent.error ⟨"first"⟩),
           Stimulus.couch (CouchEvent.error ⟨"second"⟩)]).trace ≤ 1 := by
  decide

/-- C6. After `startMultiCouch` accepted the configuration and after any sequence of
events of the managed process, an `error` event does exactly one thing: if no `start`
event came before it, it invokes the startup callback with that very error; if a `start`
event came before it, it logs the error and does not invoke the callback. -/
theorem error_event_effect (config : Config) (hrun : config.couch.run = true)
    (hbin : config.couch.bin.truthy = true) (hini : config.couch.default_ini.truthy = true)
    (before : List CouchEvent) (err : JsError) :
    ((startMultiCouch config Host.init).2.run config
        (before.map Stimulus.couch ++ [Stimulus.couch (CouchEvent.error err)])).trace
      = ((startMultiCouch config Host.init).2.run config (before.map Stimulus.couch)).trace
        ++ (if CouchEvent.start ∈ before then
              [Effect.log [LogItem.text "CouchDB Error: %j", LogItem.value (some err)]]
            else [Effect.callback (some err)]) := by
  obtain ⟨hs, hst, -⟩ := supervising_after_start config hrun hbin hini
  obtain ⟨i1, i2, -⟩ := run_couch_events config before _ hs
  rw [hst] at i2
  have hsplit : (startMultiCouch config Host.init).2.run config
      (before.map Stimulus.couch ++ [Stimulus.couch (CouchEvent.error err)])
      = ((startMultiCouch config Host.init).2.run config (before.map Stimulus.couch)).couchEmit
          config (CouchEvent.error err) := by
    have ha := i1.alive
    simp only [Host.run] at ha
    simp [Host.run, List.foldl_append, Host.deliver, ha]
  rw [hsplit, couchEmit_error config _ i1, i2]
  by_cases hm : CouchEvent.start ∈ before
  · simp [hm]
  · simp [hm]

/-- An `error` before the `start` event reaches the callback; one after it is logged. -/
theorem error_event_effect_witness :
    exampleConfig.couch.run = true
    ∧ exampleConfig.couch.bin.truthy = true
    ∧ exampleConfig.couch.default_ini.truthy = true
    ∧ ((startMultiCouch exampleConfig Host.init).2.run exampleConfig
        ([CouchEvent.start].map Stimulus.couch
          ++ [Stimulus.couch (CouchEvent.error ⟨"late"⟩)])).trace
      = ((startMultiCouch exampleConfig Host.init).2.run exampleConfig
          ([CouchEvent.start].map Stimulus.couch)).trace
        ++ (if CouchEvent.start ∈ [CouchEvent.start] then
              [Effect.log [LogItem.text "CouchDB Error: %j", LogItem.value (some ⟨"late"⟩)]]
            else [Effect.callback (some ⟨"late"⟩)]) :=
  ⟨rfl, by decide, by decide,
    error_event_effect exampleConfig rfl (by decide) (by decide) [CouchEvent.start] ⟨"late"⟩⟩

/-! ## ShutdownCoordinator -/

theorem run_append (config : Config) (h : Host) (a b : List Stimulus) :
    h.run config (a ++ b) = (h.run config a).run config b := by
  simp [Host.run, List.foldl_append]

theorem stopCount_append (a b : List Effect) :
    stopCount (a ++ b) = stopCount a + stopCount b := by
  simp [stopCount]

/-- The interrupt signal on a supervising host: the `SIGINT` hook logs, registers its
completion callback and calls `couchdb.stop()`; the process stays alive. -/
theorem deliver_sigint (config : Config) (h : Host) (hs : Supervising h) :
    h.deliver config .sigint
      = { h with
          trace := h.trace ++ [Effect.log [LogItem.text "sigint", LogItem.arguments],
            Effect.log [LogItem.text "\nStopping CouchDB..."], Effect.couchStop]
          couchListeners := [⟨.start, false, .onStart⟩, ⟨.error, false, .onError⟩,
            ⟨.stop, true, .exitAfterStop (some 0)⟩] } := by
  obtain ⟨hl, hp, he, ha⟩ := hs
  obtain ⟨trace, nextTicks, couchdb, started, cl, pl, exiting, exitCode⟩ := h
  simp only at hl hp he ha
  subst hl hp he ha
  simp [Host.deliver, Host.processEmit, ProcessEvent.name, ProcessListener.run, stop,
    Host.emit, Host.couchOnce]

/-- The `stop` event after the interrupt signal: the completion callback calls
`process.exit(0)`, the `exit` hook runs and calls `couchdb.stop()` again, and the process
ends with code 0. -/
theorem deliver_stop_after_sigint (config : Config) (h : Host) (hs : Supervising h) :
    ((h.deliver config .sigint).deliver config (.couch .stop)).trace
      = (h.deliver config .sigint).trace ++ [Effect.processExit (some 0),
            Effect.log [LogItem.text "\nStopping CouchDB..."], Effect.couchStop,
            Effect.terminated 0]
    ∧ ((h.deliver config .sigint).deliver config (.couch .stop)).exitCode = some 0 := by
  rw [deliver_sigint config h hs]
  obtain ⟨hl, hp, he, ha⟩ := hs
  obtain ⟨trace, nextTicks, couchdb, started, cl, pl, exiting, exitCode⟩ := h
  simp only at hl hp he ha
  subst hl hp he ha
  simp [Host.deliver, Host.couchEmit, CouchEvent.name, CouchListener.run, processExit,
    Host.processEmit, ProcessEvent.name, ProcessEvent.arg, ProcessListener.run, stop,
    Host.emit, Host.couchOnce, Host.reallyExit]

/-- C9, as the code has it. With the hooks of one successful `startMultiCouch` installed,
the interrupt signal makes the `SIGINT` hook call `couchdb.stop()` once, and the host
process stays alive until the managed process emits `stop`; the completion callback then
calls `process.exit(0)`, upon which the `exit` hook calls `couchdb.stop()` a second time,
and the host process ends with exit code 0. -/
theorem sigint_shutdown (config : Config) (hrun : config.couch.run = true)
    (hbin : config.couch.bin.truthy = true) (hini : config.couch.default_ini.truthy = true)
    (before : List CouchEvent) :
    ((startMultiCouch config Host.init).2.run config
        (before.map Stimulus.couch ++ [Stimulus.sigint])).trace
      = ((startMultiCouch config Host.init).2.run config (before.map Stimulus.couch)).trace
        ++ [Effect.log [LogItem.text "sigint", LogItem.arguments],
            Effect.log [LogItem.text "\nStopping CouchDB..."], Effect.couchStop]
    ∧ ((startMultiCouch config Host.init).2.run config
        (before.map Stimulus.couch ++ [Stimulus.sigint])).exitCode = none
    ∧ ((startMultiCouch config Host.init).2.run config
        (before.map Stimulus.couch ++ [Stimulus.sigint, Stimulus.couch CouchEvent.stop])).trace
      = ((startMultiCouch config Host.init).2.run config (before.map Stimulus.couch)).trace
        ++ [Effect.log [LogItem.text "sigint", LogItem.arguments],
            Effect.log [LogItem.text "\nStopping CouchDB..."], Effect.couchStop,
            Effect.processExit (some 0),
            Effect.log [LogItem.text "\nStopping CouchDB..."], Effect.couchStop,
            Effect.terminated 0]
    ∧ ((startMultiCouch config Host.init).2.run config
        (before.map Stimulus.couch ++ [Stimulus.sigint, Stimulus.couch CouchEvent.stop])).exitCode
      = some 0
    ∧ stopCount ((startMultiCouch config Host.init).2.run config
        (before.map Stimulus.couch ++ [Stimulus.sigint, Stimulus.couch CouchEvent.stop])).trace
      = stopCount
          ((startMultiCouch config Host.init).2.run config (before.map Stimulus.couch)).trace
        + 2 := by
  obtain ⟨hs, -, -⟩ := supervising_after_start config hrun hbin hini
  obtain ⟨i1, -, -⟩ := run_couch_events config before _ hs
  simp only [run_append]
  generalize (startMultiCouch config Host.init).2.run config (before.map Stimulus.couch)
    = h at i1
  obtain ⟨d1, d2⟩ := deliver_stop_after_sigint config h i1
  have e1 : h.run config [Stimulus.sigint] = h.deliver config .sigint := rfl
  have e2 : h.run config [Stimulus.sigint, Stimulus.couch CouchEvent.stop]
      = (h.deliver config .sigint).deliver config (.couch .stop) := rfl
  rw [e1, e2, d1, d2, deliver_sigint config h i1]
  refine ⟨rfl, i1.alive, by simp, rfl, ?_⟩
  simp [stopCount_append, stopCount]

/-- The interrupt signal while CouchDB runs, then its `stop` event: the whole trace. -/
theorem sigint_shutdown_witness :
    exampleConfig.couch.run = true
    ∧ exampleConfig.couch.bin.truthy = true
    ∧ exampleConfig.couch.default_ini.truthy = true
    ∧ ((startMultiCouch exampleConfig Host.init).2.run exampleConfig
        ([CouchEvent.start].map Stimulus.couch
          ++ [Stimulus.sigint, Stimulus.couch CouchEvent.stop])).exitCode = some 0 :=
  ⟨rfl, by decide, by decide,
    (sigint_shutdown exampleConfig rfl (by decide) (by decide) [CouchEvent.start]).2.2.2.1⟩

/-- The interrupt signal while CouchDB runs: `couchdb.stop()` is called twice, once by the
`SIGINT` hook and once by the `exit` hook that `process.exit(0)` triggers. -/
theorem sigint_stops_twice :
    ((startMultiCouch exampleConfig Host.init).2.run exampleConfig
        [Stimulus.couch CouchEvent.start, Stimulus.sigint,
         Stimulus.couch CouchEvent.stop]).trace
      = [Effect.newMultiCouch ⟨6003, "/srv/app", .str "/usr/bin/couchdb",
            .str "/etc/couchdb/default.ini", false, "172800"⟩,
         Effect.couchStart,
         Effect.log [LogItem.text "CouchDB started: http://127.0.0.1:6003"],
         Effect.callback none,
         Effect.log [LogItem.text "sigint", LogItem.arguments],
         Effect.log [LogItem.text "\nStopping CouchDB..."],
         Effect.couchStop,
         Effect.processExit (some 0),
         Effect.log [LogItem.text "\nStopping CouchDB..."],
         Effect.couchStop,
         Effect.terminated 0]
    ∧ stopCount ((startMultiCouch exampleConfig Host.init).2.run exampleConfig
        [Stimulus.couch CouchEvent.start, Stimulus.sigint,
         Stimulus.couch CouchEvent.stop]).trace = 2
    ∧ stopCount ((startMultiCouch exampleConfig Host.init).2.run exampleConfig
        [Stimulus.couch CouchEvent.start, Stimulus.sigint,
         Stimulus.couch CouchEvent.stop]).trace ≠ 1 := by
  decide

/-! ## ReadinessPoller -/

theorem poll_ready (logs : List String) (deadline : Nat) (env : Nat → Probe) (now : Nat)
    (s : PollState) (fields : List (String × String))
    (h : (env 0).outcome = .response 200 (some fields)) :
    poll logs deadline env now s
      = { config := { s.config with
            couch := { s.config.couch with version := fields.lookup "version" } }
          trace := s.trace ++ [PollEffect.request s.config.couch.url now,
              PollEffect.setVersion (fields.lookup "version")]
            ++ (if s.config.boring then [] else [PollEffect.spinnerSuccess])
            ++ [PollEffect.callback (now + (env 0).latency) none] } := by
  rw [poll]
  simp only [h, PollState.emit]
  cases s.config.boring <;> simp [PollState.emit]

theorem poll_retry (logs : List String) (deadline : Nat) (env : Nat → Probe) (now : Nat)
    (s : PollState) (h : (env 0).outcome.ready = false)
    (ht : now + (env 0).latency < deadline) :
    poll logs deadline env now s
      = poll logs deadline (fun k => env (k + 1))
          (now + (env 0).latency + interval + (env 0).timerDelay)
          { s with trace := s.trace ++ [PollEffect.request s.config.couch.url now,
              PollEffect.setTimeout interval] } := by
  rw [poll]
  have hd : ¬ deadline ≤ now + (env 0).latency := by omega
  split
  · rename_i body hb
    simp [hb, ProbeOutcome.ready] at h
  · simp [hd, PollState.emit]

theorem poll_timeout (logs : List String) (deadline : Nat) (env : Nat → Probe) (now : Nat)
    (s : PollState) (h : (env 0).outcome.ready = false)
    (ht : deadline ≤ now + (env 0).latency) :
    poll logs deadline env now s
      = { s with trace := s.trace ++ [PollEffect.request s.config.couch.url now]
            ++ (if s.config.boring then [] else [PollEffect.spinnerFailed])
            ++ [PollEffect.callback (now + (env 0).latency) (some (timeoutError logs))] } := by
  rw [poll]
  split
  · rename_i body hb
    simp [hb, ProbeOutcome.ready] at h
  · cases hbor : s.config.boring <;> simp [ht, PollState.emit, hbor]

theorem issueTime_shift (env : Nat → Probe) (now : Nat) (n : Nat) :
    issueTime (fun k => env (k + 1)) (now + (env 0).latency + interval + (env 0).timerDelay) n
      = issueTime env now (n + 1) := by
  induction n with
  | zero => simp [issueTime]
  | succ n ih => rw [issueTime, ih]; simp [issueTime]

theorem answerTime_shift (env : Nat → Probe) (now : Nat) (n : Nat) :
    answerTime (fun k => env (k + 1)) (now + (env 0).latency + interval + (env 0).timerDelay) n
      = answerTime env now (n + 1) := by
  simp [answerTime, issueTime_shift]

/-- As long as the probes fail before the deadline, `_poll` goes on to the next one. -/
theorem poll_retries (logs : List String) (deadline : Nat) (n : Nat) :
    ∀ (env : Nat → Probe) (now : Nat) (s : PollState),
      (∀ k < n, (env k).outcome.ready = false) →
      (∀ k < n, answerTime env now k < deadline) →
      poll logs deadline env now s
        = poll logs deadline (fun k => env (k + n)) (issueTime env now n)
            { s with trace := s.trace ++ retryTrace s.config.couch.url env now n } := by
  induction n with
  | zero => intro env now s _ _; simp [issueTime, retryTrace]
  | succ n ih =>
    intro env now s hf ht
    have h0 := ht 0 (by omega)
    simp only [answerTime, issueTime] at h0
    rw [poll_retry logs deadline env now s (hf 0 (by omega)) h0]
    rw [ih (fun k => env (k + 1)) _ _ (fun k hk => hf (k + 1) (by omega))
      (fun k hk => by rw [answerTime_shift]; exact ht (k + 1) (by omega))]
    rw [issueTime_shift]
    simp only [retryTrace, List.append_assoc, List.cons_append, List.nil_append]
    congr 1

theorem requestTimes_append (a b : List PollEffect) :
    requestTimes (a ++ b) = requestTimes a ++ requestTimes b := by
  induction a with
  | nil => rfl
  | cons e rest ih => cases e <;> simp [requestTimes, ih]

theorem callbacks_append (a b : List PollEffect) :
    callbacks (a ++ b) = callbacks a ++ callbacks b := by
  induction a with
  | nil => rfl
  | cons e rest ih => cases e <;> simp [callbacks, ih]

theorem versionWrites_append (a b : List PollEffect) :
    versionWrites (a ++ b) = versionWrites a ++ versionWrites b := by
  induction a with
  | nil => rfl
  | cons e rest ih => cases e <;> simp [versionWrites, ih]

theorem requestTimes_retryTrace (url : String) (n : Nat) :
    ∀ (env : Nat → Probe) (now : Nat),
      requestTimes (retryTrace url env now n) = (List.range n).map (issueTime env now) := by
  induction n with
  | zero => intro env now; rfl
  | succ n ih =>
    intro env now
    simp only [retryTrace, requestTimes, ih, List.range_succ_eq_map, List.map_cons,
      List.map_map]
    congr 1
    apply List.map_congr_left
    intro k _
    exact issueTime_shift env now k

theorem callbacks_retryTrace (url : String) (n : Nat) :
    ∀ (env : Nat → Probe) (now : Nat), callbacks (retryTrace url env now n) = [] := by
  induction n with
  | zero => intro env now; rfl
  | succ n ih => intro env now; simp only [retryTrace, callbacks, ih]

theorem versionWrites_retryTrace (url : String) (n : Nat) :
    ∀ (env : Nat → Probe) (now : Nat), versionWrites (retryTrace url env now n) = [] := by
  induction n with
  | zero => intro env now; rfl
  | succ n ih => intro env now; simp only [retryTrace, versionWrites, ih]

/-- Every retry takes at least one interval. -/
theorem issueTime_lower (env : Nat → Probe) (now : Nat) (n : Nat) :
    now + n * interval ≤ issueTime env now n := by
  induction n with
  | zero => simp [issueTime]
  | succ n ih => simp only [issueTime, interval] at *; omega

theorem pollCouch_eq (resolve : String → String → String) (env : Nat → Probe) (now : Nat)
    (config : Config) :
    pollCouch resolve env now config
      = poll (logfiles resolve config) (now + pollTimeout) env now
          ⟨config, [waitingIndicator config now]⟩ := by
  cases hb : config.boring <;> simp [pollCouch, waitingIndicator, PollState.emit, hb]

/-- The run of `pollCouch` when the first `n` probes fail before the deadline and the next
one answers 200 with a JSON object. -/
theorem pollCouch_success (resolve : String → String → String) (config : Config)
    (env : Nat → Probe) (now n : Nat) (fields : List (String × String))
    (hfail : ∀ k < n, (env k).outcome.ready = false)
    (hok : (env n).outcome = .response 200 (some fields))
    (hintime : ∀ k < n, answerTime env now k < now + pollTimeout) :
    pollCouch resolve env now config
      = { config := { config with
            couch := { config.couch with version := fields.lookup "version" } }
          trace := [waitingIndicator config now] ++ retryTrace config.couch.url env now n
            ++ [PollEffect.request config.couch.url (issueTime env now n),
                PollEffect.setVersion (fields.lookup "version")]
            ++ (if config.boring then [] else [PollEffect.spinnerSuccess])
            ++ [PollEffect.callback (answerTime env now n) none] } := by
  rw [pollCouch_eq, poll_retries _ _ n env now _ hfail hintime,
    poll_ready _ _ _ _ _ fields (by simpa using hok)]
  simp [answerTime]

/-- The run of `pollCouch` when the probes up to the `n`-th fail and the `n`-th is the
first to be answered at or after the deadline. -/
theorem pollCouch_timeout_at (resolve : String → String → String) (config : Config)
    (env : Nat → Probe) (now n : Nat)
    (hfail : ∀ k ≤ n, (env k).outcome.ready = false)
    (hintime : ∀ k < n, answerTime env now k < now + pollTimeout)
    (hlate : now + pollTimeout ≤ answerTime env now n) :
    pollCouch resolve env now config
      = { config := config
          trace := [waitingIndicator config now] ++ retryTrace config.couch.url env now n
            ++ [PollEffect.request config.couch.url (issueTime env now n)]
            ++ (if config.boring then [] else [PollEffect.spinnerFailed])
            ++ [PollEffect.callback (answerTime env now n)
                  (some (timeoutError (logfiles resolve config)))] } := by
  rw [pollCouch_eq, poll_retries _ _ n env now _ (fun k hk => hfail k (by omega)) hintime,
    poll_timeout _ _ _ _ _ (by simpa using hfail n (le_refl n))
      (by simpa [answerTime] using hlate)]
  simp [answerTime]

/-- What is observed of a run of `pollCouch` that gives up at the `n`-th probe. -/
theorem pollCouch_timeout_observed (resolve : String → String → String) (config : Config)
    (env : Nat → Probe) (now n : Nat)
    (hfail : ∀ k ≤ n, (env k).outcome.ready = false)
    (hintime : ∀ k < n, answerTime env now k < now + pollTimeout)
    (hlate : now + pollTimeout ≤ answerTime env now n) :
    callbacks (pollCouch resolve env now config).trace
      = [(answerTime env now n, some (timeoutError (logfiles resolve config)))]
    ∧ requestTimes (pollCouch resolve env now config).trace
        = (List.range (n + 1)).map (issueTime env now)
    ∧ versionWrites (pollCouch resolve env now config).trace = []
    ∧ (pollCouch resolve env now config).config = config
    ∧ (pollCouch resolve env now config).trace.getLast?
        = some (PollEffect.callback (answerTime env now n)
            (some (timeoutError (logfiles resolve config)))) := by
  have hrun := pollCouch_timeout_at resolve config env now n hfail hintime hlate
  rw [hrun]
  refine ⟨?_, ?_, ?_, rfl, ?_⟩
  · cases hb : config.boring <;>
      simp [callbacks_append, callbacks_retryTrace, callbacks, waitingIndicator, hb]
  · cases hb : config.boring <;>
      simp [requestTimes_append, requestTimes_retryTrace, requestTimes, waitingIndicator, hb,
        List.range_succ]
  · cases hb : config.boring <;>
      simp [versionWrites_append, versionWrites_retryTrace, versionWrites, waitingIndicator, hb]
  · exact List.getLast?_concat _

/-- C7, as the code has it. When the first `N` probes end in a non-200 outcome, each of
them answered less than 20000 ms after `pollCouch` began, and the next probe answers 200
with a JSON object whose only member is `version`, of value `1.2.0`, then `pollCouch` succeeds: the callback is invoked
exactly once, without error, when that answer arrives, which is at least `N * 200` ms
after the beginning; exactly `N + 1` requests are made, each after the answer to the one
before it and a 200 ms timer; and `config.couch.version` is written once, with `1.2.0`. -/
theorem pollCouch_ready_after_retries (resolve : String → String → String) (config : Config)
    (env : Nat → Probe) (now N : Nat)
    (hfail : ∀ k < N, (env k).outcome.ready = false)
    (hok : (env N).outcome = .response 200 (some [("version", "1.2.0")]))
    (hintime : ∀ k < N, answerTime env now k < now + 20000) :
    callbacks (pollCouch resolve env now config).trace = [(answerTime env now N, none)]
    ∧ now + N * 200 ≤ answerTime env now N
    ∧ requestTimes (pollCouch resolve env now config).trace
        = (List.range (N + 1)).map (issueTime env now)
    ∧ (requestTimes (pollCouch resolve env now config).trace).length = N + 1
    ∧ (∀ k < N, answerTime env now k + 200 ≤ issueTime env now (k + 1))
    ∧ versionWrites (pollCouch resolve env now config).trace = [some "1.2.0"]
    ∧ (pollCouch resolve env now config).config.couch.version = some "1.2.0" := by
  have hrun := pollCouch_success resolve config env now N _ hfail hok hintime
  have hlow := issueTime_lower env now N
  have hreq : requestTimes (pollCouch resolve env now config).trace
      = (List.range (N + 1)).map (issueTime env now) := by
    rw [hrun]
    cases hb : config.boring <;>
      simp [requestTimes_append, requestTimes_retryTrace, requestTimes, waitingIndicator, hb,
        List.range_succ]
  refine ⟨?_, ?_, hreq, ?_, ?_, ?_, ?_⟩
  · rw [hrun]
    cases hb : config.boring <;>
      simp [callbacks_append, callbacks_retryTrace, callbacks, waitingIndicator, hb]
  · simp only [answerTime, interval] at *; omega
  · rw [hreq]; simp
  · intro k _
    simp only [answerTime, issueTime, interval]; omega
  · rw [hrun]
    cases hb : config.boring <;>
      simp [versionWrites_append, versionWrites_retryTrace, versionWrites, waitingIndicator, hb]
  · rw [hrun]; rfl

/-- Two refused connections, then the version 1.2.0: success after 440 ms. -/
theorem pollCouch_ready_after_retries_witness :
    (∀ k < 2, (warmingEnv k).outcome.ready = false)
    ∧ (warmingEnv 2).outcome = .response 200 (some [("version", "1.2.0")])
    ∧ (∀ k < 2, answerTime warmingEnv 0 k < 0 + 20000)
    ∧ callbacks (pollCouch exampleResolve warmingEnv 0 exampleConfig).trace
        = [(answerTime warmingEnv 0 2, none)]
    ∧ answerTime warmingEnv 0 2 = 440 :=
  ⟨by decide, by decide, by decide,
   (pollCouch_ready_after_retries exampleResolve exampleConfig warmingEnv 0 2
      (by decide) (by decide) (by decide)).1,
   by decide⟩

theorem issueTime_stubbornEnv (k : Nat) (hk : k ≤ 101) : issueTime stubbornEnv 0 k = 200 * k := by
  induction k with
  | zero => rfl
  | succ k ih =>
    have hlt : k < 101 := by omega
    simp only [issueTime, ih (by omega), stubbornEnv, hlt, if_true, interval]
    omega

/-- C7 fails for `N = 101`, even on an endpoint that answers at once: the 101 refusals use
up the 20000 ms, and `pollCouch` reports the timeout instead of reaching the answer 200. -/
theorem pollCouch_gives_up_before_ready :
    (∀ k < 101, (stubbornEnv k).outcome.ready = false)
    ∧ (stubbornEnv 101).outcome = .response 200 (some [("version", "1.2.0")])
    ∧ callbacks (pollCouch exampleResolve stubbornEnv 0 exampleConfig).trace
        = [(20000, some (timeoutError (logfiles exampleResolve exampleConfig)))]
    ∧ (requestTimes (pollCouch exampleResolve stubbornEnv 0 exampleConfig).trace).length = 101
    ∧ versionWrites (pollCouch exampleResolve stubbornEnv 0 exampleConfig).trace = []
    ∧ (pollCouch exampleResolve stubbornEnv 0 exampleConfig).config.couch.version = none := by
  have hfail : ∀ k ≤ 100, (stubbornEnv k).outcome.ready = false := by
    intro k hk
    have hlt : k < 101 := by omega
    simp [stubbornEnv, hlt, ProbeOutcome.ready]
  have hanswer : ∀ k ≤ 100, answerTime stubbornEnv 0 k = 200 * k := by
    intro k hk
    have hlt : k < 101 := by omega
    simp [answerTime, issueTime_stubbornEnv k (by omega), stubbornEnv, hlt]
  obtain ⟨o1, o2, o3, o4, -⟩ :=
    pollCouch_timeout_observed exampleResolve exampleConfig stubbornEnv 0 100 hfail
      (fun k hk => by rw [hanswer k (by omega)]; simp only [pollTimeout]; omega)
      (by rw [hanswer 100 (le_refl _)]; simp [pollTimeout])
  refine ⟨fun k hk => hfail k (by omega), by decide, ?_, ?_, o3, ?_⟩
  · rw [o1, hanswer 100 (le_refl _)]
  · rw [o2, List.length_map, List.length_range]
  · rw [o4]; rfl

theorem timeoutError_message (resolve : String → String → String) (config : Config) :
    (timeoutError (logfiles resolve config)).message
      = "Timed out waiting for CouchDB. These logs may help:\n"
        ++ ("\t" ++ resolve config.hoodie.app_path "couch.stderr") ++ "\n"
        ++ ("\t" ++ resolve config.hoodie.app_path "couch.stdout") ++ "\n"
        ++ ("\t" ++ resolve config.hoodie.app_path "couch.log") := by
  have h : "Timed out waiting for CouchDB. " ++ "These logs may help:\n"
      = "Timed out waiting for CouchDB. These logs may help:\n" := by decide
  simp only [timeoutError, logfiles, String.intercalate, String.intercalate.go, h,
    String.append_assoc]

theorem issueTime_punctual (env : Nat → Probe) (now : Nat)
    (h : ∀ k, (env k).latency = 0 ∧ (env k).timerDelay = 0) (n : Nat) :
    issueTime env now n = now + n * 200 := by
  induction n with
  | zero => simp [issueTime]
  | succ n ih => simp only [issueTime, ih, (h n).1, (h n).2, interval]; omega

/-- C8, as the code has it. On an endpoint that never answers 200, a connection error and
a non-200 response being treated alike, `pollCouch` gives up at the first probe answered
20000 ms or more after it began, which is one of its first 101: it invokes the callback
exactly once, then, as its last effect, with the timeout error whose message lists
`couch.stderr`, `couch.stdout` and `couch.log` resolved under `config.hoodie.app_path`;
it makes no further request and never writes `config.couch.version`.  That moment is not
before 20000 ms, and later than 20000 ms by less than 200 ms plus the lateness of the last
timer and the time the last probe took; on an endpoint that answers at once under timers
that fire on time it is exactly 20000 ms. -/
theorem pollCouch_never_ready (resolve : String → String → String) (config : Config)
    (env : Nat → Probe) (now : Nat) (hnever : ∀ k, (env k).outcome.ready = false) :
    ∃ n, n ≤ 100
      ∧ callbacks (pollCouch resolve env now config).trace
          = [(answerTime env now n, some (timeoutError (logfiles resolve config)))]
      ∧ (timeoutError (logfiles resolve config)).message
          = "Timed out waiting for CouchDB. These logs may help:\n"
            ++ ("\t" ++ resolve config.hoodie.app_path "couch.stderr") ++ "\n"
            ++ ("\t" ++ resolve config.hoodie.app_path "couch.stdout") ++ "\n"
            ++ ("\t" ++ resolve config.hoodie.app_path "couch.log")
      ∧ now + 20000 ≤ answerTime env now n
      ∧ (∀ k < n, answerTime env now k < now + 20000)
      ∧ (0 < n → answerTime env now n
            < now + 20000 + 200 + (env (n - 1)).timerDelay + (env n).latency)
      ∧ ((∀ k, (env k).latency = 0 ∧ (env k).timerDelay = 0) →
            answerTime env now n = now + 20000)
      ∧ requestTimes (pollCouch resolve env now config).trace
          = (List.range (n + 1)).map (issueTime env now)
      ∧ (pollCouch resolve env now config).trace.getLast?
          = some (PollEffect.callback (answerTime env now n)
              (some (timeoutError (logfiles resolve config))))
      ∧ versionWrites (pollCouch resolve env now config).trace = []
      ∧ (pollCouch resolve env now config).config = config := by
  have hex : ∃ n, now + pollTimeout ≤ answerTime env now n := by
    refine ⟨100, ?_⟩
    have := issueTime_lower env now 100
    simp only [answerTime, pollTimeout, interval] at *
    omega
  have hle : Nat.find hex ≤ 100 := by
    apply Nat.find_min'
    have := issueTime_lower env now 100
    simp only [answerTime, pollTimeout, interval] at *
    omega
  have hlate := Nat.find_spec hex
  have hbefore : ∀ k < Nat.find hex, answerTime env now k < now + pollTimeout := by
    intro k hk
    have := Nat.find_min hex hk
    omega
  obtain ⟨o1, o2, o3, o4, o5⟩ := pollCouch_timeout_observed resolve config env now
    (Nat.find hex) (fun k _ => hnever k) hbefore hlate
  refine ⟨Nat.find hex, hle, o1, timeoutError_message resolve config, hlate, hbefore, ?_, ?_,
    o2, o5, o3, o4⟩
  · intro hpos
    have hprev := hbefore (Nat.find hex - 1) (by omega)
    obtain ⟨m, hm⟩ : ∃ m, Nat.find hex = m + 1 := ⟨Nat.find hex - 1, by omega⟩
    rw [hm] at hprev ⊢
    simp only [Nat.add_sub_cancel, answerTime, issueTime, pollTimeout, interval] at *
    omega
  · intro hp
    have e1 : answerTime env now (Nat.find hex) = now + Nat.find hex * 200 := by
      simp [answerTime, issueTime_punctual env now hp, (hp _).1]
    rw [e1] at hlate ⊢
    simp only [pollTimeout] at hlate
    omega

/-- Every request fails after 30 seconds: `pollCouch` reports the timeout after 30000 ms. -/
theorem pollCouch_never_ready_witness :
    (∀ k, (slowEnv k).outcome.ready = false)
    ∧ ∃ n, n ≤ 100
      ∧ callbacks (pollCouch exampleResolve slowEnv 0 exampleConfig).trace
          = [(answerTime slowEnv 0 n, some (timeoutError (logfiles exampleResolve exampleConfig)))] :=
  ⟨fun _ => rfl,
   (pollCouch_never_ready exampleResolve exampleConfig slowEnv 0 (fun _ => rfl)).imp
     fun _ h => ⟨h.1, h.2.1⟩⟩

/-- C8 fails on an endpoint on which every request takes 30 seconds to fail: the callback
comes at 30000 ms, not within 200 ms of 20000 ms. -/
theorem pollCouch_timeout_late :
    (∀ k, (slowEnv k).outcome.ready = false)
    ∧ callbacks (pollCouch exampleResolve slowEnv 0 exampleConfig).trace
        = [(30000, some (timeoutError (logfiles exampleResolve exampleConfig)))]
    ∧ ¬ 30000 ≤ 20000 + 200 := by
  obtain ⟨o1, -⟩ := pollCouch_timeout_observed exampleResolve exampleConfig slowEnv 0 0
    (fun _ _ => rfl) (fun k hk => absurd hk (Nat.not_lt_zero k)) (by decide)
  exact ⟨fun _ => rfl, o1, by decide⟩

end HoodieServer
